import Mathlib

/-!
# Verification of the gemini-rs subprocess RPC core

Shallow embedding of `src/lib.rs` of the `gemini-rs` repository.

Modelling conventions:
* Byte strings (stdout, stderr, file contents) are modelled as `String`;
  the UTF-8 lossy conversion at the Rust boundary is the identity here.
* `std::io::Error` and `serde_json::Error` are external, effectively
  opaque error payloads; each is modelled as a structure carrying a
  message string.
* The live operating-system process is replaced by a `ProcessBehavior`
  record: the outcome of `spawn`, and the outcome of
  `wait_with_output` (exit-status success flag, captured stdout and
  stderr).  The functions of the library are then pure functions of the
  builder state and this behaviour.
* `serde_json::from_slice` / `from_str` are external; they enter the
  model as an explicit `parse` oracle argument.
* The stdin feeder task is spawned with `tokio::spawn` and its result is
  discarded (`let _ = ...`) in the source; the completed outcome of that
  task enters the model as an explicit argument, which the embedded
  functions ignore exactly as the source discards it.
-/

/-- Opaque payload of a `std::io::Error`. -/
structure IOErr where
  msg : String
deriving DecidableEq, Repr

/-- Opaque payload of a `serde_json::Error`. -/
structure SerdeErr where
  msg : String
deriving DecidableEq, Repr

/-- An opaque `serde_json::Value`. -/
structure JsonValue where
  raw : String
deriving DecidableEq, Repr

/-- Structure `GeminiErrorDetail` from `src/lib.rs`: details of an error returned by the API. -/
structure GeminiErrorDetail where
  err_type : String
  message : String
  code : Option Int
deriving DecidableEq, Repr

/-- Structure `ToolStats` from `src/lib.rs`. -/
structure ToolStats where
  total_calls : Nat
  total_success : Nat
  total_fail : Nat
deriving DecidableEq, Repr

/-- Structure `FileStats` from `src/lib.rs`. -/
structure FileStats where
  total_lines_added : Nat
  total_lines_removed : Nat
deriving DecidableEq, Repr

/-- Structure `ModelStats` from `src/lib.rs`; the two `HashMap`s are modelled as
association lists. -/
structure ModelStats where
  api : List (String × JsonValue)
  tokens : List (String × Nat)
deriving DecidableEq, Repr

/-- Structure `GeminiStats` from `src/lib.rs`. -/
structure GeminiStats where
  models : List (String × ModelStats)
  tools : ToolStats
  files : FileStats
deriving DecidableEq, Repr

/-- Structure `GeminiJsonOutput` from `src/lib.rs` (the spec calls it `CompletedResponse`). -/
structure GeminiJsonOutput where
  response : String
  stats : Option GeminiStats
  error : Option GeminiErrorDetail
deriving DecidableEq, Repr

/-- Inductive `StreamEvent` from `src/lib.rs`: events emitted during streaming. -/
inductive StreamEvent where
  | Init (session_id : String) (model : String) (timestamp : String)
  | Message (role : String) (content : String) (delta : Option Bool) (timestamp : String)
  | ToolUse (tool_name : String) (parameters : JsonValue) (timestamp : String)
  | ToolResult (tool_id : String) (status : String) (output : String) (timestamp : String)
  | Result (status : String) (stats : JsonValue) (timestamp : String)
  | Error (message : String)
deriving DecidableEq, Repr

/-- Inductive `GeminiError` from `src/lib.rs`: the four-kind error taxonomy. -/
inductive GeminiError where
  | CliLaunchFailed (source : IOErr)
  | JsonParseFailed (source : SerdeErr)
  | ApiError (msg : String)
  | RuntimeError (msg : String)
deriving DecidableEq, Repr

/-- The user-facing message of each error kind, from the `thiserror`
format strings on `GeminiError` in `src/lib.rs`. -/
def GeminiError.toMessage : GeminiError → String
  | .CliLaunchFailed _ => "Failed to start Gemini CLI. Is it installed?"
  | .JsonParseFailed _ => "Failed to parse JSON output"
  | .ApiError m => "Gemini API Error: " ++ m
  | .RuntimeError m => "Runtime Error: " ++ m

/-- Predicate: `msg` occurs (contiguously, in full) inside `big`. -/
def containsFull (big msg : String) : Prop :=
  ∃ pre post, big = pre ++ msg ++ post

/-- The builder struct `Gemini` from `src/lib.rs`. -/
structure Gemini where
  bin_path : String
  prompt : String
  input_data : Option String
  input_files : List String
  model : Option String
  include_dirs : List String
  yolo : Bool
  debug : Bool
deriving DecidableEq, Repr

namespace Gemini

/-- Embeds `Gemini::new` from `src/lib.rs`. -/
def new (prompt : String) : Gemini :=
  { bin_path := "gemini"
    prompt := prompt
    input_data := none
    input_files := []
    model := none
    include_dirs := []
    yolo := false
    debug := false }

/-- Embeds the `Gemini::bin_path` builder method. -/
def set_bin_path (g : Gemini) (path : String) : Gemini := { g with bin_path := path }

/-- Embeds the `Gemini::model` builder method. -/
def set_model (g : Gemini) (m : String) : Gemini := { g with model := some m }

/-- Embeds the `Gemini::context` builder method. -/
def context (g : Gemini) (data : String) : Gemini := { g with input_data := some data }

/-- Embeds the `Gemini::file` builder method. -/
def file (g : Gemini) (path : String) : Gemini :=
  { g with input_files := g.input_files ++ [path] }

/-- Embeds the `Gemini::include` builder method. -/
def include_dir (g : Gemini) (dir : String) : Gemini :=
  { g with include_dirs := g.include_dirs ++ [dir] }

/-- Embeds the `Gemini::yolo` builder method. -/
def set_yolo (g : Gemini) : Gemini := { g with yolo := true }

/-- Embeds the `Gemini::debug` builder method. -/
def set_debug (g : Gemini) : Gemini := { g with debug := true }

/-- Embeds `Gemini::build_command` from `src/lib.rs`: the argument
vector passed to the spawned program (the program path itself is
`bin_path`, kept separately, as in `Command::new`). Each `cmd.arg(..)`
call of the source appends to the accumulated vector; the sequential
mutation of `cmd` is rendered as a chain of shadowing `let`s. -/
def build_command (g : Gemini) (format : String) : List String :=
  let cmd : List String := []
  let cmd := cmd ++ ["--output-format", format]
  let cmd := match g.model with
    | some m => cmd ++ ["--model", m]
    | none => cmd
  let cmd := if g.yolo then cmd ++ ["--yolo"] else cmd
  let cmd := if g.debug then cmd ++ ["--debug"] else cmd
  let cmd := if !g.include_dirs.isEmpty then
      cmd ++ ["--include-directories", String.intercalate "," g.include_dirs]
    else cmd
  cmd ++ [g.prompt]

end Gemini

/-- Outcome of `Child::wait_with_output` on success: exit-status success
flag and the fully captured output streams. -/
structure ProcOutput where
  status_success : Bool
  stdout : String
  stderr : String
deriving DecidableEq, Repr

/-- Abstract behaviour of the spawned OS process, as observed through
the two fallible operations `execute_process` performs on it. -/
structure ProcessBehavior where
  spawn : Except IOErr Unit
  wait_with_output : Except IOErr ProcOutput
deriving Repr

namespace Gemini

/-- Embeds `Gemini::execute_process` from `src/lib.rs`. `feeder` is the
completed outcome of the background `write_stdin` task; the source
spawns that task and discards its result (`let _ = ...`), so this
function ignores `feeder`. -/
def execute_process (g : Gemini) (format : String) (proc : ProcessBehavior)
    (feeder : Except IOErr Unit) : Except GeminiError String :=
  let _cmd := g.build_command format
  let _ := feeder
  match proc.spawn with
  | .error e => .error (.CliLaunchFailed e)
  | .ok _ =>
    match proc.wait_with_output with
    | .error e => .error (.CliLaunchFailed e)
    | .ok output =>
      if !output.status_success then
        .error (.RuntimeError output.stderr)
      else
        .ok output.stdout

/-- Embeds `Gemini::text` from `src/lib.rs`: buffered text mode. -/
def text (g : Gemini) (proc : ProcessBehavior) (feeder : Except IOErr Unit) :
    Except GeminiError String :=
  match g.execute_process "text" proc feeder with
  | .error e => .error e
  | .ok out => .ok out.trim

/-- Embeds `Gemini::json` from `src/lib.rs`: buffered JSON mode. `parse` is the
external `serde_json::from_slice` decoder for `GeminiJsonOutput`. -/
def json (g : Gemini) (proc : ProcessBehavior)
    (parse : String → Except SerdeErr GeminiJsonOutput)
    (feeder : Except IOErr Unit) : Except GeminiError GeminiJsonOutput :=
  match g.execute_process "json" proc feeder with
  | .error e => .error e
  | .ok out =>
    match parse out with
    | .error e => .error (.JsonParseFailed e)
    | .ok parsed =>
      match parsed.error with
      | some err => .error (.ApiError err.message)
      | none => .ok parsed

end Gemini

/-- Blank-line test of the stream loop: the source skips a line when
`line.trim().is_empty()`; a trimmed line is empty exactly when every
character of the line is whitespace, which is how the test is rendered
here (kernel-computable, unlike `String.trim`). -/
def isBlankLine (l : String) : Bool := l.data.all Char.isWhitespace

/-- One step of the `try_stream!` loop body in `Gemini::stream`
(`src/lib.rs`), applied to the list of lines read from stdout: blank
lines are skipped, each other line is decoded by the external
`serde_json::from_str` oracle `parse`; a decode failure yields one final
error item and stops. The list ends when stdout is closed. -/
def streamEvents (parse : String → Except SerdeErr StreamEvent) :
    List String → List (Except GeminiError StreamEvent)
  | [] => []
  | line :: rest =>
    if isBlankLine line then
      streamEvents parse rest
    else
      match parse line with
      | .error e => [.error (.JsonParseFailed e)]
      | .ok ev => .ok ev :: streamEvents parse rest

/-- The item `streamEvents` produces for one non-blank line. -/
def decodeItem (parse : String → Except SerdeErr StreamEvent) (line : String) :
    Except GeminiError StreamEvent :=
  match parse line with
  | .error e => .error (.JsonParseFailed e)
  | .ok ev => .ok ev

namespace Gemini

/-- Embeds `Gemini::stream` from `src/lib.rs`: spawns the process (a spawn
failure is the only error of the outer call) and returns the lazy event
sequence, modelled as the full list of items it yields for the given
stdout lines. The sequence itself never consults the process exit
status: it is a function of the stdout lines alone. `feeder` is the
discarded outcome of the background `write_stdin` task. -/
def stream (g : Gemini) (proc : ProcessBehavior) (stdout_lines : List String)
    (parse : String → Except SerdeErr StreamEvent)
    (feeder : Except IOErr Unit) :
    Except GeminiError (List (Except GeminiError StreamEvent)) :=
  let _cmd := g.build_command "stream-json"
  let _ := feeder
  match proc.spawn with
  | .error e => .error (.CliLaunchFailed e)
  | .ok _ => .ok (streamEvents parse stdout_lines)

end Gemini

/-- One observable action of the stdin feeder on the input-writer
handle. -/
inductive WriteOp where
  | write (bytes : String)
  | close
deriving DecidableEq, Repr

/-- The file-loop of `Gemini::write_stdin`: for each path in order, read
the whole file via the filesystem oracle `fs` and write its contents
followed by a newline; a read failure returns early with that error. -/
def writeFilesTrace (fs : String → Except IOErr String) :
    List String → List WriteOp × Except IOErr Unit
  | [] => ([], .ok ())
  | p :: rest =>
    match fs p with
    | .error e => ([], .error e)
    | .ok content =>
      let (ops, r) := writeFilesTrace fs rest
      (WriteOp.write content :: WriteOp.write "\n" :: ops, r)

namespace Gemini

/-- Embeds `Gemini::write_stdin` from `src/lib.rs`, as the trace of actions on
the writer handle plus the function's own `io::Result`. Pipe writes are
modelled as always accepted (their possible failure is abstracted into
the feeder-outcome argument of the callers); whole-file reads go through
the fallible oracle `fs`. The handle is moved into the function and
dropped on every exit path, so every trace ends with `close`. -/
def write_stdin (fs : String → Except IOErr String) (text : Option String)
    (files : List String) : List WriteOp × Except IOErr Unit :=
  let textOps : List WriteOp :=
    match text with
    | some t => [WriteOp.write t, WriteOp.write "\n"]
    | none => []
  let (fileOps, r) := writeFilesTrace fs files
  (textOps ++ fileOps ++ [WriteOp.close], r)

end Gemini

/-!
## Claim theorems
-/

/-- C1: for every request configuration the constructed argument vector
is a pure function of the configuration (in this embedding
`build_command` is a mathematical function of the builder state and the
format string, so determinism is inherent and the equation below pins
the value down completely), and its order is: the output-format flag and
its value first, then the model flag if set, then the auto-approve flag
if set, then the diagnostics flag if set, then the include-directories
flag with the comma-joined list if that list is non-empty, and finally
the instruction text as the last positional argument. -/
theorem build_command_order_stable (g : Gemini) (format : String) :
    g.build_command format =
      ["--output-format", format]
        ++ (match g.model with | some m => ["--model", m] | none => [])
        ++ (if g.yolo then ["--yolo"] else [])
        ++ (if g.debug then ["--debug"] else [])
        ++ (if g.include_dirs.isEmpty then []
            else ["--include-directories", String.intercalate "," g.include_dirs])
        ++ [g.prompt]
    ∧ (g.build_command format).head? = some "--output-format"
    ∧ (g.build_command format).getLast? = some g.prompt := by
  have hEq : g.build_command format =
      ["--output-format", format]
        ++ (match g.model with | some m => ["--model", m] | none => [])
        ++ (if g.yolo then ["--yolo"] else [])
        ++ (if g.debug then ["--debug"] else [])
        ++ (if g.include_dirs.isEmpty then []
            else ["--include-directories", String.intercalate "," g.include_dirs])
        ++ [g.prompt] := by
    unfold Gemini.build_command
    cases g.model <;> cases g.yolo <;> cases g.debug <;>
      cases hi : g.include_dirs.isEmpty <;> simp [hi]
  refine ⟨hEq, ?_, ?_⟩
  · rw [hEq]; simp [List.head?_append]
  · rw [hEq]; exact List.getLast?_concat _

/-- C2: in buffered mode (text or json), if the subprocess exits with an
unsuccessful status the call returns a runtime error whose message
contains the full captured stderr text, and no successful result is
returned. -/
theorem buffered_nonzero_exit_yields_runtime_error
    (g : Gemini) (format : String) (proc : ProcessBehavior)
    (feeder : Except IOErr Unit) (out : ProcOutput)
    (hspawn : proc.spawn = .ok ())
    (hwait : proc.wait_with_output = .ok out)
    (hfail : out.status_success = false) :
    g.execute_process format proc feeder = .error (.RuntimeError out.stderr)
    ∧ g.text proc feeder = .error (.RuntimeError out.stderr)
    ∧ (∀ parse, g.json proc parse feeder = .error (.RuntimeError out.stderr))
    ∧ containsFull (GeminiError.toMessage (.RuntimeError out.stderr)) out.stderr := by
  have hexec : ∀ fmt, g.execute_process fmt proc feeder
      = .error (.RuntimeError out.stderr) := by
    intro fmt
    simp [Gemini.execute_process, hspawn, hwait, hfail]
  refine ⟨hexec format, ?_, ?_, ?_⟩
  · simp [Gemini.text, hexec "text"]
  · intro parse; simp [Gemini.json, hexec "json"]
  · exact ⟨"Runtime Error: ", "", by simp [GeminiError.toMessage, String.append_empty]⟩

/-- Witness for C2: the crash scenario of the repository's own
`test_cli_crash_handling` test, with exit status 1 and stderr text
Critical Failure. -/
theorem buffered_nonzero_exit_yields_runtime_error_witness :
    ((⟨.ok (), .ok ⟨false, "", "Critical Failure"⟩⟩ : ProcessBehavior).spawn
        = .ok ())
    ∧ ((⟨.ok (), .ok ⟨false, "", "Critical Failure"⟩⟩ : ProcessBehavior).wait_with_output
        = .ok ⟨false, "", "Critical Failure"⟩)
    ∧ ((⟨false, "", "Critical Failure"⟩ : ProcOutput).status_success = false)
    ∧ ((Gemini.new "crash_it").execute_process "text"
          ⟨.ok (), .ok ⟨false, "", "Critical Failure"⟩⟩ (.ok ())
        = .error (.RuntimeError "Critical Failure")
      ∧ (Gemini.new "crash_it").text
          ⟨.ok (), .ok ⟨false, "", "Critical Failure"⟩⟩ (.ok ())
        = .error (.RuntimeError "Critical Failure")
      ∧ (∀ parse, (Gemini.new "crash_it").json
          ⟨.ok (), .ok ⟨false, "", "Critical Failure"⟩⟩ parse (.ok ())
        = .error (.RuntimeError "Critical Failure"))
      ∧ containsFull (GeminiError.toMessage (.RuntimeError "Critical Failure"))
          "Critical Failure") :=
  ⟨rfl, rfl, rfl,
    buffered_nonzero_exit_yields_runtime_error (Gemini.new "crash_it") "text"
      ⟨.ok (), .ok ⟨false, "", "Critical Failure"⟩⟩ (.ok ())
      ⟨false, "", "Critical Failure"⟩ rfl rfl rfl⟩

/-- C3: in JSON mode, when the subprocess exits successfully and its
stdout parses as a `GeminiJsonOutput` whose `error` field is populated,
the call returns an API error carrying the remote error message instead
of the parsed response: the error field takes precedence over the
successful exit status. -/
theorem json_remote_error_takes_precedence
    (g : Gemini) (proc : ProcessBehavior)
    (parse : String → Except SerdeErr GeminiJsonOutput)
    (feeder : Except IOErr Unit) (out : ProcOutput)
    (parsed : GeminiJsonOutput) (detail : GeminiErrorDetail)
    (hspawn : proc.spawn = .ok ())
    (hwait : proc.wait_with_output = .ok out)
    (hok : out.status_success = true)
    (hparse : parse out.stdout = .ok parsed)
    (herr : parsed.error = some detail) :
    g.json proc parse feeder = .error (.ApiError detail.message) := by
  simp [Gemini.json, Gemini.execute_process, hspawn, hwait, hok, hparse, herr]

/-- Witness for C3: exit status 0, stdout parsing to a response whose
structured error field reports a quota failure. -/
theorem json_remote_error_takes_precedence_witness :
    ((⟨.ok (), .ok ⟨true, "body", ""⟩⟩ : ProcessBehavior).spawn = .ok ())
    ∧ ((⟨.ok (), .ok ⟨true, "body", ""⟩⟩ : ProcessBehavior).wait_with_output
        = .ok ⟨true, "body", ""⟩)
    ∧ ((⟨true, "body", ""⟩ : ProcOutput).status_success = true)
    ∧ ((fun _ => .ok ⟨"", none, some ⟨"quota", "Quota exceeded", some 429⟩⟩ :
          String → Except SerdeErr GeminiJsonOutput) "body"
        = .ok ⟨"", none, some ⟨"quota", "Quota exceeded", some 429⟩⟩)
    ∧ ((⟨"", none, some ⟨"quota", "Quota exceeded", some 429⟩⟩ : GeminiJsonOutput).error
        = some ⟨"quota", "Quota exceeded", some 429⟩)
    ∧ (Gemini.new "ask").json ⟨.ok (), .ok ⟨true, "body", ""⟩⟩
        (fun _ => .ok ⟨"", none, some ⟨"quota", "Quota exceeded", some 429⟩⟩) (.ok ())
        = .error (.ApiError "Quota exceeded") :=
  ⟨rfl, rfl, rfl, rfl, rfl,
    json_remote_error_takes_precedence (Gemini.new "ask")
      ⟨.ok (), .ok ⟨true, "body", ""⟩⟩
      (fun _ => .ok ⟨"", none, some ⟨"quota", "Quota exceeded", some 429⟩⟩) (.ok ())
      ⟨true, "body", ""⟩ ⟨"", none, some ⟨"quota", "Quota exceeded", some 429⟩⟩
      ⟨"quota", "Quota exceeded", some 429⟩ rfl rfl rfl rfl rfl⟩

/-- C4: in JSON mode, when the subprocess exits successfully but its
stdout does not decode as a `GeminiJsonOutput`, the call returns a
decode-failure error carrying the parser diagnostic as its payload. -/
theorem json_decode_failure_carries_cause
    (g : Gemini) (proc : ProcessBehavior)
    (parse : String → Except SerdeErr GeminiJsonOutput)
    (feeder : Except IOErr Unit) (out : ProcOutput) (e : SerdeErr)
    (hspawn : proc.spawn = .ok ())
    (hwait : proc.wait_with_output = .ok out)
    (hok : out.status_success = true)
    (hparse : parse out.stdout = .error e) :
    g.json proc parse feeder = .error (.JsonParseFailed e) := by
  simp [Gemini.json, Gemini.execute_process, hspawn, hwait, hok, hparse]

/-- Witness for C4: the bad-json scenario of the repository's own
`test_malformed_json_handling` test, where the program prints plain
text in JSON mode. -/
theorem json_decode_failure_carries_cause_witness :
    ((⟨.ok (), .ok ⟨true, "plain text", ""⟩⟩ : ProcessBehavior).spawn = .ok ())
    ∧ ((⟨.ok (), .ok ⟨true, "plain text", ""⟩⟩ : ProcessBehavior).wait_with_output
        = .ok ⟨true, "plain text", ""⟩)
    ∧ ((⟨true, "plain text", ""⟩ : ProcOutput).status_success = true)
    ∧ ((fun _ => .error ⟨"expected value at line 1"⟩ :
          String → Except SerdeErr GeminiJsonOutput) "plain text"
        = .error ⟨"expected value at line 1"⟩)
    ∧ (Gemini.new "bad_json").json ⟨.ok (), .ok ⟨true, "plain text", ""⟩⟩
        (fun _ => .error ⟨"expected value at line 1"⟩) (.ok ())
        = .error (.JsonParseFailed ⟨"expected value at line 1"⟩) :=
  ⟨rfl, rfl, rfl, rfl,
    json_decode_failure_carries_cause (Gemini.new "bad_json")
      ⟨.ok (), .ok ⟨true, "plain text", ""⟩⟩
      (fun _ => .error ⟨"expected value at line 1"⟩) (.ok ())
      ⟨true, "plain text", ""⟩ ⟨"expected value at line 1"⟩ rfl rfl rfl rfl⟩

/-- C10: in buffered mode, an OS failure while awaiting the process
output after a successful spawn is classified with the same
launch-failure constructor as a failure to spawn; there is no separate
error kind for a post-spawn wait failure. -/
theorem wait_failure_classified_as_launch_failure
    (g : Gemini) (format : String) (proc : ProcessBehavior)
    (feeder : Except IOErr Unit) (e : IOErr)
    (hspawn : proc.spawn = .ok ())
    (hwait : proc.wait_with_output = .error e) :
    g.execute_process format proc feeder = .error (.CliLaunchFailed e)
    ∧ (∀ (proc2 : ProcessBehavior) (e2 : IOErr), proc2.spawn = .error e2 →
        g.execute_process format proc2 feeder = .error (.CliLaunchFailed e2)) := by
  constructor
  · simp [Gemini.execute_process, hspawn, hwait]
  · intro proc2 e2 hs2
    simp [Gemini.execute_process, hs2]

/-- Witness for C10: a process that spawns but whose wait fails with an
interrupted-call error. -/
theorem wait_failure_classified_as_launch_failure_witness :
    ((⟨.ok (), .error ⟨"interrupted"⟩⟩ : ProcessBehavior).spawn = .ok ())
    ∧ ((⟨.ok (), .error ⟨"interrupted"⟩⟩ : ProcessBehavior).wait_with_output
        = .error ⟨"interrupted"⟩)
    ∧ ((Gemini.new "ask").execute_process "json"
          ⟨.ok (), .error ⟨"interrupted"⟩⟩ (.ok ())
        = .error (.CliLaunchFailed ⟨"interrupted"⟩)
      ∧ (∀ (proc2 : ProcessBehavior) (e2 : IOErr), proc2.spawn = .error e2 →
          (Gemini.new "ask").execute_process "json" proc2 (.ok ())
            = .error (.CliLaunchFailed e2))) :=
  ⟨rfl, rfl,
    wait_failure_classified_as_launch_failure (Gemini.new "ask") "json"
      ⟨.ok (), .error ⟨"interrupted"⟩⟩ (.ok ()) ⟨"interrupted"⟩ rfl rfl⟩


/-- Helper: when every non-blank line decodes successfully, the stream
yields exactly the decoded item of each non-blank line, in order. -/
lemma streamEvents_all_ok (parse : String → Except SerdeErr StreamEvent)
    (lines : List String)
    (h : ∀ l ∈ lines, isBlankLine l = false → (parse l).isOk = true) :
    streamEvents parse lines
      = (lines.filter fun l => !isBlankLine l).map (decodeItem parse) := by
  induction lines with
  | nil => rfl
  | cons l rest ih =>
    have hrest : ∀ x ∈ rest, isBlankLine x = false → (parse x).isOk = true :=
      fun x hx => h x (List.mem_cons_of_mem _ hx)
    cases hb : isBlankLine l with
    | true => simp [streamEvents, hb, List.filter_cons, ih hrest]
    | false =>
      have hok := h l (List.mem_cons_self _ _) hb
      cases hp : parse l with
      | error e => rw [hp] at hok; simp [Except.isOk, Except.toBool] at hok
      | ok ev =>
        simp [streamEvents, hb, hp, List.filter_cons, decodeItem, ih hrest]

/-- Helper: skipping blank lines first does not change the produced
items. -/
lemma streamEvents_eq_filter (parse : String → Except SerdeErr StreamEvent)
    (lines : List String) :
    streamEvents parse lines
      = streamEvents parse (lines.filter fun l => !isBlankLine l) := by
  induction lines with
  | nil => rfl
  | cons l rest ih =>
    cases hb : isBlankLine l with
    | true => simp [streamEvents, hb, List.filter_cons, ih]
    | false =>
      cases hp : parse l with
      | error e => simp [streamEvents, hb, hp, List.filter_cons]
      | ok ev => simp [streamEvents, hb, hp, List.filter_cons, ih]

/-- Helper: on a list with no blank lines, the stream either decodes
every line, or stops at the first failing line with a single error item
at the end. -/
lemma streamEvents_no_blank_dichotomy (parse : String → Except SerdeErr StreamEvent)
    (F : List String) (hF : ∀ l ∈ F, isBlankLine l = false) :
    ((∀ l ∈ F, (parse l).isOk = true)
      ∧ streamEvents parse F = F.map (decodeItem parse))
    ∨ (∃ pre bad post e, F = pre ++ bad :: post
        ∧ (∀ l ∈ pre, (parse l).isOk = true)
        ∧ parse bad = .error e
        ∧ streamEvents parse F
            = pre.map (decodeItem parse) ++ [.error (.JsonParseFailed e)]) := by
  induction F with
  | nil => exact Or.inl ⟨by simp, rfl⟩
  | cons l rest ih =>
    have hl : isBlankLine l = false := hF l (List.mem_cons_self _ _)
    have hrest : ∀ x ∈ rest, isBlankLine x = false :=
      fun x hx => hF x (List.mem_cons_of_mem _ hx)
    cases hp : parse l with
    | error e =>
      refine Or.inr ⟨[], l, rest, e, by simp, by simp, hp, ?_⟩
      simp [streamEvents, hl, hp]
    | ok ev =>
      rcases ih hrest with ⟨hok, heq⟩ | ⟨pre, bad, post, e, hsplit, hpre, hbad, heq⟩
      · refine Or.inl ⟨?_, ?_⟩
        · intro x hx
          rcases List.mem_cons.mp hx with rfl | hx
          · simp [hp, Except.isOk, Except.toBool]
          · exact hok x hx
        · simp [streamEvents, hl, hp, heq, decodeItem]
      · refine Or.inr ⟨l :: pre, bad, post, e, by simp [hsplit], ?_, hbad, ?_⟩
        · intro x hx
          rcases List.mem_cons.mp hx with rfl | hx
          · simp [hp, Except.isOk, Except.toBool]
          · exact hpre x hx
        · simp [streamEvents, hl, hp, heq, decodeItem]

/-- C5: in streaming mode the produced sequence yields exactly one
decoded event per non-blank stdout line, in exactly the order the lines
were received; blank lines are skipped without producing an item, and
there is no reordering: when the lines decode to an init event first
and a result event last, the first consumed item is that init event and
the last is that result event. -/
theorem stream_events_in_line_order
    (parse : String → Except SerdeErr StreamEvent) (lines : List String)
    (h : ∀ l ∈ lines, isBlankLine l = false → (parse l).isOk = true) :
    streamEvents parse lines
      = (lines.filter fun l => !isBlankLine l).map (decodeItem parse)
    ∧ (∀ (initLine resLine : String) (mid : List String)
        (sid mdl ts st : String) (stats : JsonValue) (ts2 : String),
        lines.filter (fun l => !isBlankLine l) = initLine :: (mid ++ [resLine]) →
        parse initLine = .ok (.Init sid mdl ts) →
        parse resLine = .ok (.Result st stats ts2) →
        (streamEvents parse lines).head? = some (.ok (.Init sid mdl ts))
        ∧ (streamEvents parse lines).getLast? = some (.ok (.Result st stats ts2))) := by
  have hmain := streamEvents_all_ok parse lines h
  refine ⟨hmain, ?_⟩
  intro initLine resLine mid sid mdl ts st stats ts2 hfil hpi hpr
  rw [hmain, hfil]
  constructor
  · simp [decodeItem, hpi]
  · rw [List.map_cons, List.map_append, ← List.cons_append]
    rw [List.map_singleton, List.getLast?_concat]
    simp [decodeItem, hpr]

/-- Concrete stream decoder used by the C5 witness: an init line, a
message line, a result line; anything else is a decode failure. -/
def decodeFive : String → Except SerdeErr StreamEvent := fun l =>
  if l = "I" then .ok (.Init "s" "m" "t0")
  else if l = "M" then .ok (.Message "assistant" "hello" (some true) "t1")
  else if l = "R" then .ok (.Result "success" ⟨"stats"⟩ "t2")
  else .error ⟨"unexpected"⟩

/-- Witness for C5: a concrete session of an init line, a blank line, a
message line and a result line. -/
theorem stream_events_in_line_order_witness :
    (∀ l ∈ ["I", "", "M", "R"], isBlankLine l = false → (decodeFive l).isOk = true)
    ∧ (streamEvents decodeFive ["I", "", "M", "R"]
        = ((["I", "", "M", "R"].filter fun l => !isBlankLine l).map (decodeItem decodeFive))
      ∧ (∀ (initLine resLine : String) (mid : List String)
          (sid mdl ts st : String) (stats : JsonValue) (ts2 : String),
          ["I", "", "M", "R"].filter (fun l => !isBlankLine l)
              = initLine :: (mid ++ [resLine]) →
          decodeFive initLine = .ok (.Init sid mdl ts) →
          decodeFive resLine = .ok (.Result st stats ts2) →
          (streamEvents decodeFive ["I", "", "M", "R"]).head?
              = some (.ok (.Init sid mdl ts))
          ∧ (streamEvents decodeFive ["I", "", "M", "R"]).getLast?
              = some (.ok (.Result st stats ts2)))) :=
  ⟨by decide, stream_events_in_line_order decodeFive ["I", "", "M", "R"] (by decide)⟩

/-- C6: the streaming sequence ends in exactly two ways: normally, when
the lines from stdout are exhausted with every non-blank line decoded,
or abnormally, when a non-blank line fails to decode, in which case the
sequence yields the items of the successfully decoded earlier lines
followed by a single decode-failure error item as its final item and
nothing afterwards; and the sequence is a function of the stdout lines
alone, never consulting the process exit status (the outer `stream`
call gives the same sequence whatever `wait_with_output` would say). -/
theorem stream_end_modes (parse : String → Except SerdeErr StreamEvent)
    (lines : List String) :
    (((∀ l ∈ lines.filter (fun l => !isBlankLine l), (parse l).isOk = true)
        ∧ streamEvents parse lines
            = (lines.filter (fun l => !isBlankLine l)).map (decodeItem parse))
      ∨ (∃ pre bad post e,
          lines.filter (fun l => !isBlankLine l) = pre ++ bad :: post
          ∧ (∀ l ∈ pre, (parse l).isOk = true)
          ∧ parse bad = .error e
          ∧ streamEvents parse lines
              = pre.map (decodeItem parse) ++ [.error (.JsonParseFailed e)]))
    ∧ (∀ (g : Gemini) (s : Except IOErr Unit) (w1 w2 : Except IOErr ProcOutput)
        (feeder : Except IOErr Unit),
        g.stream ⟨s, w1⟩ lines parse feeder = g.stream ⟨s, w2⟩ lines parse feeder) := by
  constructor
  · have hF : ∀ l ∈ lines.filter (fun l => !isBlankLine l), isBlankLine l = false := by
      intro l hl
      have hmem := List.mem_filter.mp hl
      simpa using hmem.2
    have h := streamEvents_no_blank_dichotomy parse
      (lines.filter fun l => !isBlankLine l) hF
    rw [← streamEvents_eq_filter parse lines] at h
    exact h
  · intro g s w1 w2 feeder
    rfl

/-- Helper: when every listed file reads successfully, the file loop of
the stdin feeder writes each file's contents followed by a newline, in
list order, and reports success. -/
lemma writeFilesTrace_all_ok (fs : String → Except IOErr String)
    (files contents : List String)
    (h : files.map fs = contents.map Except.ok) :
    writeFilesTrace fs files
      = ((contents.map fun c => [WriteOp.write c, WriteOp.write "\n"]).flatten,
          Except.ok ()) := by
  induction files generalizing contents with
  | nil =>
    cases contents with
    | nil => rfl
    | cons c cs => simp at h
  | cons p rest ih =>
    cases contents with
    | nil => simp at h
    | cons c cs =>
      simp only [List.map_cons, List.cons.injEq] at h
      obtain ⟨h1, h2⟩ := h
      simp [writeFilesTrace, h1, ih cs h2]

/-- C7: for every input payload whose listed files all read
successfully, the stdin feeder writes the inline text first followed by
one newline (when inline text is present), then each listed file's full
contents in list order, each followed by one newline, and then closes
the writer handle; the trace equality shows nothing else is written and
nothing is written out of this order. -/
theorem write_stdin_order_and_close (fs : String → Except IOErr String)
    (t : Option String) (files contents : List String)
    (h : files.map fs = contents.map Except.ok) :
    Gemini.write_stdin fs t files
      = ((match t with
          | some s => [WriteOp.write s, WriteOp.write "\n"]
          | none => [])
          ++ (contents.map fun c => [WriteOp.write c, WriteOp.write "\n"]).flatten
          ++ [WriteOp.close],
          Except.ok ()) := by
  unfold Gemini.write_stdin
  rw [writeFilesTrace_all_ok fs files contents h]

/-- Witness for C7: inline context plus two files, read by a filesystem
in which each path reads as its own name. -/
theorem write_stdin_order_and_close_witness :
    (["a", "b"].map (fun p => (Except.ok p : Except IOErr String))
        = ["a", "b"].map Except.ok)
    ∧ Gemini.write_stdin (fun p => Except.ok p) (some "ctx") ["a", "b"]
        = ([WriteOp.write "ctx", WriteOp.write "\n",
            WriteOp.write "a", WriteOp.write "\n",
            WriteOp.write "b", WriteOp.write "\n",
            WriteOp.close], Except.ok ()) :=
  ⟨rfl, write_stdin_order_and_close (fun p => Except.ok p) (some "ctx")
    ["a", "b"] ["a", "b"] rfl⟩

/-- C8: in every mode the outcome of the stdin-feeder task is never
propagated to the primary result: each execution call returns the same
value whatever the feeder's outcome was, so a feeder failure alone can
never turn a successful primary result into an error. This mirrors the
source, which spawns the feeder task and discards its result. -/
theorem feeder_outcome_never_affects_primary_result
    (g : Gemini) (format : String) (proc : ProcessBehavior) (lines : List String)
    (parseJ : String → Except SerdeErr GeminiJsonOutput)
    (parseS : String → Except SerdeErr StreamEvent)
    (f1 f2 : Except IOErr Unit) :
    g.execute_process format proc f1 = g.execute_process format proc f2
    ∧ g.text proc f1 = g.text proc f2
    ∧ g.json proc parseJ f1 = g.json proc parseJ f2
    ∧ g.stream proc lines parseS f1 = g.stream proc lines parseS f2 :=
  ⟨rfl, rfl, rfl, rfl⟩
